import Mathlib

/-!
Shallow embedding of the Ps_Mangment session-billing and daily-summary logic.

Money and timestamps are modelled as rationals; timestamps are milliseconds
since the epoch, matching JavaScript `Date.getTime()`.  The client logic is
taken from `DeviceManagement` (calculateSessionCost, startSession, endSession)
and `SalesManagement` (handleCheckout); the aggregator is the SQL function
`calculate_daily_summary` of the migration files.
-/

namespace PsM

/-- JavaScript truncation toward zero (the rounding used by the `%` operator). -/
def jsTrunc (x : ℚ) : ℤ := if 0 ≤ x then ⌊x⌋ else ⌈x⌉

/-- JavaScript remainder: the operator computes `x - y * trunc (x / y)`. -/
def jsMod (x y : ℚ) : ℚ := x - y * (jsTrunc (x / y) : ℚ)

/-- JavaScript rounding via `Math.round`: half-way cases go toward positive
infinity. -/
def jsRound (x : ℚ) : ℤ := ⌊x + 1 / 2⌋

/-- Two-decimal rounding used for costs: `Math.round(x * 100) / 100`. -/
def round2 (x : ℚ) : ℚ := (jsRound (x * 100) : ℚ) / 100

/-- Device status enum of the `devices` table. -/
inductive DeviceStatus
  | available
  | occupied
  | maintenance
deriving DecidableEq, Repr

/-- Session status enum of the `sessions` table. -/
inductive SessionStatus
  | active
  | completed
deriving DecidableEq, Repr

/-- A row of the `devices` table (the fields the client logic reads). -/
structure Device where
  id : String
  status : DeviceStatus
  hourly_rate : ℚ
  extra_controller_rate : ℚ
deriving DecidableEq, Repr

/-- A row of the `sessions` table, as the `Session` client type. -/
structure Session where
  id : String
  device_id : String
  start_time : Option ℚ
  end_time : Option ℚ
  extra_controllers : ℕ
  status : SessionStatus
  total_cost : ℚ
  discount_amount : ℚ
  final_amount : ℚ
  customer_name : Option String
deriving DecidableEq, Repr

/-- The function `calculateSessionCost` of `DeviceManagement`.  The component state it
reads is passed explicitly: `isOpenSessionFlag` is the `isOpenSession` UI
state, `isExpired` is `expiredSessions.has(session.id)`, and `now` is
`new Date()`.  The literals `0.025` and `1.5` are the source's hard-coded
per-minute and per-hour rates, written as `25 / 1000` and `3 / 2`. -/
def calculateSessionCost (isOpenSessionFlag : Bool) (isExpired : Bool) (now : ℚ)
    (session : Session) (device : Device) : ℚ :=
  match session.start_time with
  | none => 0
  | some start =>
    let endMs : ℚ :=
      if !isOpenSessionFlag && session.end_time.isSome && isExpired then
        session.end_time.getD now
      else
        let e0 := session.end_time.getD now
        if !isOpenSessionFlag && session.end_time.isSome &&
            decide (now > session.end_time.getD now) then
          session.end_time.getD now
        else
          e0
    let totalMinutes : ℚ := (endMs - start) / (1000 * 60)
    let baseCost : ℚ :=
      if isOpenSessionFlag then
        totalMinutes * (25 / 1000)
      else
        (⌊totalMinutes / 60⌋ : ℚ) * (3 / 2) + jsMod totalMinutes 60 * (25 / 1000)
    let hours : ℚ := totalMinutes / 60
    let extraControllersCost : ℚ :=
      (session.extra_controllers : ℚ) * device.extra_controller_rate * hours
    round2 (baseCost + extraControllersCost)

/-- The sale row built per cart item by `handleCheckout` of `SalesManagement`:
`subtotal` and `discountAmount` come from `calculateTotal()` over the whole
cart, `discount` is the percentage entered in the UI. -/
structure SaleRecord where
  product_id : String
  quantity : ℕ
  unit_price : ℚ
  total_price : ℚ
  discount_amount : ℚ
  final_amount : ℚ
deriving DecidableEq, Repr

/-- One inserted row of `handleCheckout`: the cart item has unit price
`price` and quantity `qty`; `subtotal` is the whole cart's subtotal and
`discount` the percentage discount. -/
def checkoutSale (pid : String) (price : ℚ) (qty : ℕ) (subtotal discount : ℚ) :
    SaleRecord :=
  let discountAmount := discount / 100 * subtotal
  { product_id := pid
    quantity := qty
    unit_price := price
    total_price := price * qty
    discount_amount := discountAmount / subtotal * (price * qty)
    final_amount := price * qty * (1 - discount / 100) }

/-- The global state the session-lifecycle operations touch: the `devices`
and `sessions` tables. -/
structure StoreState where
  devices : List Device
  sessions : List Session
deriving Repr

/-- The device-status write, `supabase.from('devices').update(..).eq('id', did)`:
set the status of every device row whose id matches. -/
def setDeviceStatus (devices : List Device) (did : String) (st : DeviceStatus) :
    List Device :=
  devices.map fun d => if d.id = did then { d with status := st } else d

/-- The session row `startSession` inserts (and the throw-away session it
feeds to `calculateSessionCost` for the initial cost, up to the id). -/
def newSessionRow (sid did : String) (startTime : ℚ) (endTime : Option ℚ)
    (cost : ℚ) (customerName : Option String) : Session :=
  { id := sid
    device_id := did
    start_time := some startTime
    end_time := endTime
    extra_controllers := 0
    status := SessionStatus.active
    total_cost := cost
    discount_amount := 0
    final_amount := cost
    customer_name := customerName }

/-- The function `startSession` of `DeviceManagement`.  `newSessionId` stands for the uuid
the database generates for the inserted row.  Storage writes are modelled
as succeeding, so the two reachable throws are the validation errors; a
thrown error lands in the catch block, which surfaces the message and then
unconditionally issues the compensating write
`from('devices').update(..available..).eq('id', deviceId)` — also when the
rejection happened before any write, rewriting the device row to
`available`.  The result is the final table state paired with the surfaced
error, if any. -/
def startSession (st : StoreState) (deviceId : String) (isOpen : Bool)
    (sessionDuration : ℚ) (customerName : Option String) (now : ℚ)
    (newSessionId : String) : StoreState × Option String :=
  match st.devices.find? fun d => d.id == deviceId with
  | none =>
    ({ st with
        devices := setDeviceStatus st.devices deviceId DeviceStatus.available },
      some "Device not found")
  | some device =>
    if device.status ≠ DeviceStatus.available then
      ({ st with
          devices := setDeviceStatus st.devices deviceId DeviceStatus.available },
        some "Device is not available")
    else
      let endTime : Option ℚ :=
        if isOpen then none else some (now + sessionDuration * 60 * 1000)
      let initialCost :=
        calculateSessionCost isOpen false now
          (newSessionRow "" deviceId now endTime 0 customerName) device
      ({ devices := setDeviceStatus st.devices deviceId DeviceStatus.occupied
         sessions := st.sessions ++
           [newSessionRow newSessionId deviceId now endTime initialCost
             customerName] },
        none)

/-- The `sessions` update of `endSession`:
`.update({end_time, status: completed, total_cost, discount_amount,
final_amount}).eq('id', sid)`. -/
def completeSession (sessions : List Session) (sid : String)
    (endTime totalCost discountAmount finalAmount : ℚ) : List Session :=
  sessions.map fun s =>
    if s.id = sid then
      { s with
        end_time := some endTime
        status := SessionStatus.completed
        total_cost := totalCost
        discount_amount := discountAmount
        final_amount := finalAmount }
    else s

/-- The function `endSession` of `DeviceManagement`.  `activeSessions[deviceId]` is the
device's active session as fetched from the table; when either lookup fails
the handler returns without touching anything.  `isOpenFlag` and
`expiredFlag` are the component state `calculateSessionCost` reads. -/
def endSession (st : StoreState) (deviceId : String) (isOpenFlag expiredFlag : Bool)
    (now discount : ℚ) : StoreState :=
  match st.sessions.find? fun s =>
          s.device_id == deviceId && s.status == SessionStatus.active,
        st.devices.find? fun d => d.id == deviceId with
  | some session, some device =>
    let totalCost :=
      calculateSessionCost isOpenFlag expiredFlag now
        { session with end_time := some now } device
    let discountAmount := discount / 100 * totalCost
    let finalAmount := totalCost - discountAmount
    { devices := setDeviceStatus st.devices deviceId DeviceStatus.available
      sessions := completeSession st.sessions session.id now totalCost
        discountAmount finalAmount }
  | _, _ => st

/-- A row of the `sales` table as the SQL aggregator reads it;
`created_date` is `DATE(created_at)` as an abstract day number. -/
structure SaleRow where
  created_date : ℕ
  total_price : ℚ
  final_amount : ℚ
deriving DecidableEq, Repr

/-- A row of the `sessions` table as the SQL aggregator reads it. -/
structure SessionRow where
  created_date : ℕ
  status : SessionStatus
  total_cost : ℚ
  final_amount : ℚ
deriving DecidableEq, Repr

/-- A row of the `expenses` table as the SQL aggregator reads it. -/
structure ExpenseRow where
  date : ℕ
  amount : ℚ
deriving DecidableEq, Repr

/-- The derived fields of one `daily_summaries` row. -/
structure DailySummary where
  date : ℕ
  sessions_revenue : ℚ
  sales_revenue : ℚ
  expenses_total : ℚ
  discounts_total : ℚ
  net_income : ℚ
deriving DecidableEq, Repr

/-- The join partners of one sale row in
`sales s FULL OUTER JOIN sessions sess
ON DATE(sess.created_at) = DATE(s.created_at)`: the sale is paired with
every session of the same creation date, or with a NULL partner when no
session matches. -/
def joinRowsOf (sessions : List SessionRow) (s : SaleRow) :
    List (Option SaleRow × Option SessionRow) :=
  let sameDate := sessions.filter fun t => t.created_date == s.created_date
  if sameDate.isEmpty then [(some s, none)]
  else sameDate.map fun t => (some s, some t)

/-- The full outer join of the discount aggregation: every sale with its
partners, then every session with no matching sale, once with a NULL sale
side. -/
def discountJoinRows (sales : List SaleRow) (sessions : List SessionRow) :
    List (Option SaleRow × Option SessionRow) :=
  sales.flatMap (joinRowsOf sessions) ++
  ((sessions.filter fun t =>
      !sales.any fun s => s.created_date == t.created_date).map
    fun t => ((none : Option SaleRow), some t))

/-- The expression `DATE(COALESCE(s.created_at, sess.created_at))` of a join row (at least
one side of a full outer join row is non-NULL). -/
def coalesceDate (p : Option SaleRow × Option SessionRow) : ℕ :=
  match p.1, p.2 with
  | some s, _ => s.created_date
  | none, some t => t.created_date
  | none, none => 0

/-- The SQL function `calculate_daily_summary(summary_date)` of the
migrations, as the pure map from the base tables to the upserted row.
`SUM` ignores NULL operands, so a NULL side of a join row contributes `0`. -/
def calculate_daily_summary (sales : List SaleRow) (sessions : List SessionRow)
    (expenses : List ExpenseRow) (summary_date : ℕ) : DailySummary :=
  let sessions_rev :=
    ((sessions.filter fun t =>
        t.created_date == summary_date && t.status == SessionStatus.completed).map
      fun t => t.final_amount).sum
  let sales_rev :=
    ((sales.filter fun s => s.created_date == summary_date).map
      fun s => s.final_amount).sum
  let expenses_tot :=
    ((expenses.filter fun e => e.date == summary_date).map
      fun e => e.amount).sum
  let joined :=
    (discountJoinRows sales sessions).filter fun p => coalesceDate p == summary_date
  let discounts_tot :=
    (joined.map fun p =>
      match p.1 with
      | some s => s.total_price - s.final_amount
      | none => 0).sum +
    (joined.map fun p =>
      match p.2 with
      | some t => t.total_cost - t.final_amount
      | none => 0).sum
  { date := summary_date
    sessions_revenue := sessions_rev
    sales_revenue := sales_rev
    expenses_total := expenses_tot
    discounts_total := discounts_tot
    net_income := sessions_rev + sales_rev - expenses_tot }

/-- The spec's discount aggregation, written from its words: the sum of
`total_price − final_amount` over the sales created that date plus the sum
of `total_cost − final_amount` over the sessions created that date, each row
counted exactly once. -/
def specDiscountsTotal (sales : List SaleRow) (sessions : List SessionRow)
    (summary_date : ℕ) : ℚ :=
  ((sales.filter fun s => s.created_date == summary_date).map
    fun s => s.total_price - s.final_amount).sum +
  ((sessions.filter fun t => t.created_date == summary_date).map
    fun t => t.total_cost - t.final_amount).sum

/-- The number of active sessions a device id owns, out of a `sessions`
table. -/
def activeSessionCount (sessions : List Session) (did : String) : ℕ :=
  (sessions.filter fun s =>
    s.device_id == did && s.status == SessionStatus.active).length

/-- The one-active-session-per-device invariant: session ids are unique (the
table's primary key), an occupied device owns exactly one active session,
and a device in any other state owns none. -/
def sessionsInv (st : StoreState) : Prop :=
  (st.sessions.map Session.id).Nodup ∧
  ∀ d ∈ st.devices,
    (d.status = DeviceStatus.occupied → activeSessionCount st.sessions d.id = 1) ∧
    (d.status ≠ DeviceStatus.occupied → activeSessionCount st.sessions d.id = 0)

/-- Evaluation helper: the floor of a rational is the integer it brackets. -/
theorem floor_eval {x : ℚ} {n : ℤ} (h1 : (n : ℚ) ≤ x) (h2 : x < n + 1) : ⌊x⌋ = n :=
  Int.floor_eq_iff.mpr ⟨h1, h2⟩

/-- Monotonicity of `round2`: rounding both sides of an inequality to two
decimals preserves it. -/
theorem round2_mono {x y : ℚ} (h : x ≤ y) : round2 x ≤ round2 y := by
  unfold round2 jsRound
  have hf : ⌊x * 100 + 1 / 2⌋ ≤ ⌊y * 100 + 1 / 2⌋ :=
    Int.floor_le_floor (by linarith)
  exact div_le_div_of_nonneg_right (by exact_mod_cast hf) (by norm_num)

/-- When a session row carries a non-null `end_time`, `calculateSessionCost`
resolves the effective end to that stored value on every control path, so
the result depends neither on the current time nor on the expired flag. -/
theorem calc_const_of_end_some (iso b b' : Bool) (t t' e : ℚ) (s : Session)
    (d : Device) :
    calculateSessionCost iso b t { s with end_time := some e } d =
      calculateSessionCost iso b' t' { s with end_time := some e } d := by
  unfold calculateSessionCost
  cases s.start_time with
  | none => rfl
  | some start =>
    simp only [Option.getD_some, Option.isSome_some]
    split <;> split <;> simp

/-- Summing a constant over a list multiplies it by the length. -/
theorem list_sum_map_const {α : Type} (l : List α) (c : ℚ) :
    (l.map fun _ => c).sum = (l.length : ℚ) * c := by
  induction l with
  | nil => simp
  | cons a t ih =>
    simp only [List.map_cons, List.sum_cons, ih, List.length_cons]
    push_cast
    ring

/-- Pulling a constant factor out of a sum over a list. -/
theorem list_sum_map_mul_left {α : Type} (l : List α) (c : ℚ) (f : α → ℚ) :
    (l.map fun a => c * f a).sum = c * (l.map f).sum := by
  induction l with
  | nil => simp
  | cons a t ih =>
    simp only [List.map_cons, List.sum_cons, ih]
    ring

/-- Summing a function over a flattened list of lists, block by block. -/
theorem list_sum_map_flatMap {α β : Type} (l : List α) (g : α → List β)
    (h : β → ℚ) :
    ((l.flatMap g).map h).sum = (l.map fun a => ((g a).map h).sum).sum := by
  induction l with
  | nil => simp
  | cons a t ih =>
    simp [List.flatMap_cons, ih]

/-- A flat map whose blocks are guarded by a boolean is a flat map over the
filtered list. -/
theorem list_flatMap_ite {α β : Type} (l : List α) (q : α → Bool)
    (g : α → List β) :
    (l.flatMap fun a => if q a then g a else []) = (l.filter q).flatMap g := by
  induction l with
  | nil => rfl
  | cons a t ih =>
    by_cases h : q a <;> simp [List.flatMap_cons, List.filter_cons, h, ih]

/-- C4: the recomputed daily summary sums `final_amount` over the completed
sessions created on the target date, `final_amount` over the sales created
that date, and `amount` over the expenses whose own `date` equals the
target date, and sets `net_income` to sessions plus sales revenue minus
expenses, without subtracting `discounts_total`. -/
theorem C4_daily_summary_revenue_fields (sales : List SaleRow)
    (sessions : List SessionRow) (expenses : List ExpenseRow) (d : ℕ) :
    (calculate_daily_summary sales sessions expenses d).sessions_revenue =
        ((sessions.filter fun t =>
            decide (t.created_date = d ∧ t.status = SessionStatus.completed)).map
          fun t => t.final_amount).sum ∧
      (calculate_daily_summary sales sessions expenses d).sales_revenue =
        ((sales.filter fun s => decide (s.created_date = d)).map
          fun s => s.final_amount).sum ∧
      (calculate_daily_summary sales sessions expenses d).expenses_total =
        ((expenses.filter fun e => decide (e.date = d)).map
          fun e => e.amount).sum ∧
      (calculate_daily_summary sales sessions expenses d).net_income =
        (calculate_daily_summary sales sessions expenses d).sessions_revenue +
          (calculate_daily_summary sales sessions expenses d).sales_revenue -
          (calculate_daily_summary sales sessions expenses d).expenses_total := by
  have hsess : (sessions.filter fun t =>
      t.created_date == d && t.status == SessionStatus.completed) =
      sessions.filter fun t =>
        decide (t.created_date = d ∧ t.status = SessionStatus.completed) := by
    apply List.filter_congr
    intro t _
    by_cases h1 : t.created_date = d <;>
      by_cases h2 : t.status = SessionStatus.completed <;> simp [h1, h2]
  have hsales : (sales.filter fun s => s.created_date == d) =
      sales.filter fun s => decide (s.created_date = d) := by
    apply List.filter_congr
    intro s _
    by_cases h1 : s.created_date = d <;> simp [h1]
  have hexp : (expenses.filter fun e => e.date == d) =
      expenses.filter fun e => decide (e.date = d) := by
    apply List.filter_congr
    intro e _
    by_cases h1 : e.date = d <;> simp [h1]
  refine ⟨?_, ?_, ?_, rfl⟩
  · simp only [calculate_daily_summary, hsess]
  · simp only [calculate_daily_summary, hsales]
  · simp only [calculate_daily_summary, hexp]

/-- C3 counterexample: one sale with discount 1 and two sessions with
discount 0, all created on day 5.  The claim predicts `discounts_total = 1`
(each row once); the full-outer-join aggregation counts the sale's discount
once per session of the date and yields `2`. -/
theorem C3_discounts_double_count_cex :
    (calculate_daily_summary [SaleRow.mk 5 10 9]
        [SessionRow.mk 5 SessionStatus.completed 4 4,
          SessionRow.mk 5 SessionStatus.completed 6 6] [] 5).discounts_total =
        2 ∧
      specDiscountsTotal [SaleRow.mk 5 10 9]
        [SessionRow.mk 5 SessionStatus.completed 4 4,
          SessionRow.mk 5 SessionStatus.completed 6 6] 5 = 1 ∧
      (2 : ℚ) ≠ 1 := by
  refine ⟨?_, ?_, by norm_num⟩
  · simp [calculate_daily_summary, discountJoinRows, joinRowsOf, coalesceDate]
    norm_num
  · simp [specDiscountsTotal]
    norm_num

/-- Filtering a sale's join partners by the summary date keeps all of them
when the sale was created on that date and none otherwise, since every
partner row carries the sale's own creation date on its sale side. -/
theorem joinRowsOf_filter_date (sessions : List SessionRow) (d : ℕ)
    (s : SaleRow) :
    ((joinRowsOf sessions s).filter fun p => coalesceDate p == d) =
      if s.created_date == d then joinRowsOf sessions s else [] := by
  unfold joinRowsOf
  cases he : (sessions.filter fun t => t.created_date == s.created_date).isEmpty <;>
    cases hd : s.created_date == d <;>
      simp [he, List.filter_cons, List.filter_map, coalesceDate, hd,
        Function.comp_def]

/-- C3 amended: the full-outer-join discount aggregation counts every
sale's discount once per session created on the same date (at least once)
and every session's discount once per sale created on the same date (at
least once): with `m` sales and `n` sessions created on the target date,
`discounts_total = max(n,1) · Σ sale discounts + max(m,1) · Σ session
discounts`; the claimed per-row-once sum holds only when `m ≤ 1` or
`n ≤ 1`. -/
theorem C3_discounts_total_closed_form (sales : List SaleRow)
    (sessions : List SessionRow) (expenses : List ExpenseRow) (d : ℕ) :
    (calculate_daily_summary sales sessions expenses d).discounts_total =
      ((max (sessions.filter fun t => t.created_date == d).length 1 : ℕ) : ℚ) *
          ((sales.filter fun s => s.created_date == d).map
            fun s => s.total_price - s.final_amount).sum +
        ((max (sales.filter fun s => s.created_date == d).length 1 : ℕ) : ℚ) *
          ((sessions.filter fun t => t.created_date == d).map
            fun t => t.total_cost - t.final_amount).sum := by
  classical
  have hA : ((sales.flatMap (joinRowsOf sessions)).filter
        fun p => coalesceDate p == d) =
      (sales.filter fun s => s.created_date == d).flatMap
        (joinRowsOf sessions) := by
    rw [List.filter_flatMap]
    have hfun : (fun s =>
        (joinRowsOf sessions s).filter fun p => coalesceDate p == d) =
        fun s => if s.created_date == d then joinRowsOf sessions s else [] :=
      funext (joinRowsOf_filter_date sessions d)
    rw [hfun, list_flatMap_ite]
  have hAc : (sales.filter fun s => s.created_date == d).flatMap
        (joinRowsOf sessions) =
      (sales.filter fun s => s.created_date == d).flatMap fun s =>
        if (sessions.filter fun t => t.created_date == d).isEmpty then
          [((some s : Option SaleRow), (none : Option SessionRow))]
        else (sessions.filter fun t => t.created_date == d).map
          fun t => (some s, some t) := by
    apply List.flatMap_congr
    intro s hs
    have hsd : s.created_date = d := by
      simpa using (List.mem_filter.mp hs).2
    unfold joinRowsOf
    rw [hsd]
  have hB : (((sessions.filter fun t =>
        !sales.any fun s => s.created_date == t.created_date).map
        fun t => ((none : Option SaleRow), some t)).filter
        fun p => coalesceDate p == d) =
      ((sessions.filter fun t =>
          !sales.any fun s => s.created_date == t.created_date).filter
        fun t => t.created_date == d).map
        fun t => ((none : Option SaleRow), some t) := by
    rw [List.filter_map]
    rfl
  simp only [calculate_daily_summary, discountJoinRows, List.filter_append,
    List.map_append, List.sum_append]
  rw [hA, hAc, hB]
  by_cases hm : (sales.filter fun s => s.created_date == d) = []
  · have hBs : ((sessions.filter fun t =>
          !sales.any fun s => s.created_date == t.created_date).filter
          fun t => t.created_date == d) =
        sessions.filter fun t => t.created_date == d := by
      rw [List.filter_filter]
      apply List.filter_congr
      intro t _
      cases hd : t.created_date == d
      · simp
      · have htd : t.created_date = d := by simpa using hd
        have hany : (sales.any fun s => s.created_date == t.created_date) =
            false := by
          rw [List.any_eq_false]
          intro s hs
          have := List.filter_eq_nil_iff.mp hm s hs
          simpa [htd] using this
        simp [hany]
    rw [hm, hBs]
    simp only [List.flatMap_nil, List.map_nil, List.sum_nil, List.length_nil,
      List.map_map]
    have h1 : ((sessions.filter fun t => t.created_date == d).map
        ((fun p : Option SaleRow × Option SessionRow =>
          match p.1 with
          | some s => s.total_price - s.final_amount
          | none => 0) ∘ fun t => ((none : Option SaleRow), some t))).sum =
        ((sessions.filter fun t => t.created_date == d).map fun _ =>
          (0 : ℚ)).sum := rfl
    have h2 : ((sessions.filter fun t => t.created_date == d).map
        ((fun p : Option SaleRow × Option SessionRow =>
          match p.2 with
          | some t => t.total_cost - t.final_amount
          | none => 0) ∘ fun t => ((none : Option SaleRow), some t))).sum =
        ((sessions.filter fun t => t.created_date == d).map fun t =>
          t.total_cost - t.final_amount).sum := rfl
    rw [h1, h2, list_sum_map_const]
    push_cast
    have hmax : ((0 : ℚ) ⊔ 1) = 1 := max_eq_right (by norm_num)
    rw [hmax]
    ring
  · have hm1 : 1 ≤ (sales.filter fun s => s.created_date == d).length :=
      List.length_pos.mpr hm
    have hBs : ((sessions.filter fun t =>
          !sales.any fun s => s.created_date == t.created_date).filter
          fun t => t.created_date == d) = [] := by
      rw [List.filter_eq_nil_iff]
      intro t htmem htd
      obtain ⟨s1, hs1⟩ :=
        List.exists_mem_of_ne_nil (sales.filter fun s => s.created_date == d) hm
      have hs1s : s1 ∈ sales := (List.mem_filter.mp hs1).1
      have hs1d : s1.created_date = d := by
        simpa using (List.mem_filter.mp hs1).2
      have htd' : t.created_date = d := by simpa using htd
      have hno : (sales.any fun s => s.created_date == t.created_date) = false := by
        simpa using (List.mem_filter.mp htmem).2
      have : (sales.any fun s => s.created_date == t.created_date) = true :=
        List.any_eq_true.mpr ⟨s1, hs1s, by simp [hs1d, htd']⟩
      rw [hno] at this
      cases this
    rw [hBs]
    simp only [List.map_nil, List.sum_nil]
    by_cases hn : (sessions.filter fun t => t.created_date == d) = []
    · have hie : (sessions.filter fun t => t.created_date == d).isEmpty = true :=
        List.isEmpty_iff.mpr hn
      simp only [hie, if_true, ite_true]
      rw [list_sum_map_flatMap, list_sum_map_flatMap]
      have e1 : ((sales.filter fun s => s.created_date == d).map fun s =>
          (([((some s : Option SaleRow), (none : Option SessionRow))]).map
            fun p : Option SaleRow × Option SessionRow =>
              match p.1 with
              | some s => s.total_price - s.final_amount
              | none => 0).sum) =
          (sales.filter fun s => s.created_date == d).map fun s =>
            s.total_price - s.final_amount := by
        apply List.map_congr_left
        intro s _
        simp
      have e2 : ((sales.filter fun s => s.created_date == d).map fun s =>
          (([((some s : Option SaleRow), (none : Option SessionRow))]).map
            fun p : Option SaleRow × Option SessionRow =>
              match p.2 with
              | some t => t.total_cost - t.final_amount
              | none => 0).sum) =
          (sales.filter fun s => s.created_date == d).map fun _ => (0 : ℚ) := by
        apply List.map_congr_left
        intro s _
        simp
      rw [e1, e2, list_sum_map_const]
      rw [hn]
      simp only [List.length_nil, List.map_nil, List.sum_nil]
      push_cast
      have hmax : ((0 : ℚ) ⊔ 1) = 1 := max_eq_right (by norm_num)
      rw [hmax]
      ring
    · have hn1 : 1 ≤ (sessions.filter fun t => t.created_date == d).length :=
        List.length_pos.mpr hn
      have hie : (sessions.filter fun t => t.created_date == d).isEmpty = false :=
        List.isEmpty_eq_false.mpr hn
      simp only [hie, Bool.false_eq_true, if_false, ite_false]
      rw [list_sum_map_flatMap, list_sum_map_flatMap]
      have e1 : ((sales.filter fun s => s.created_date == d).map fun s =>
          (((sessions.filter fun t => t.created_date == d).map fun t =>
            ((some s : Option SaleRow), some t)).map
            fun p : Option SaleRow × Option SessionRow =>
              match p.1 with
              | some s => s.total_price - s.final_amount
              | none => 0).sum) =
          (sales.filter fun s => s.created_date == d).map fun s =>
            ((sessions.filter fun t => t.created_date == d).length : ℚ) *
              (s.total_price - s.final_amount) := by
        apply List.map_congr_left
        intro s _
        have hmm : (((sessions.filter fun t => t.created_date == d).map fun t =>
            ((some s : Option SaleRow), some t)).map
            fun p : Option SaleRow × Option SessionRow =>
              match p.1 with
              | some s => s.total_price - s.final_amount
              | none => 0) =
            (sessions.filter fun t => t.created_date == d).map fun _ =>
              s.total_price - s.final_amount := by
          rw [List.map_map]
          rfl
        rw [hmm, list_sum_map_const]
      have e2 : ((sales.filter fun s => s.created_date == d).map fun s =>
          (((sessions.filter fun t => t.created_date == d).map fun t =>
            ((some s : Option SaleRow), some t)).map
            fun p : Option SaleRow × Option SessionRow =>
              match p.2 with
              | some t => t.total_cost - t.final_amount
              | none => 0).sum) =
          (sales.filter fun s => s.created_date == d).map fun _ =>
            ((sessions.filter fun t => t.created_date == d).map fun t =>
              t.total_cost - t.final_amount).sum := by
        apply List.map_congr_left
        intro s _
        have hmm : (((sessions.filter fun t => t.created_date == d).map fun t =>
            ((some s : Option SaleRow), some t)).map
            fun p : Option SaleRow × Option SessionRow =>
              match p.2 with
              | some t => t.total_cost - t.final_amount
              | none => 0) =
            (sessions.filter fun t => t.created_date == d).map fun t =>
              t.total_cost - t.final_amount := by
          rw [List.map_map]
          rfl
        rw [hmm]
      rw [e1, e2, list_sum_map_mul_left, list_sum_map_const]
      rw [max_eq_left hn1, max_eq_left hm1]
      ring

/-- C1: the claim says the open-ended per-minute rate is the owning device's
`hourly_rate / 60` for every rate card.  The code hard-codes `0.025` per
minute: on the seeded VIP device (`hourly_rate = 3`), a 60-minute open-ended
session with no extra controllers is billed `1.50`, while the claimed
formula `elapsed_minutes × (hourly_rate / 60)` gives `3.00`. -/
theorem C1_open_rate_is_hardcoded :
    calculateSessionCost true false 3600000
        { id := "s1", device_id := "vip", start_time := some 0, end_time := none,
          extra_controllers := 0, status := SessionStatus.active, total_cost := 0,
          discount_amount := 0, final_amount := 0, customer_name := none }
        { id := "vip", status := DeviceStatus.occupied, hourly_rate := 3,
          extra_controller_rate := 0 } = 3 / 2 ∧
      (60 : ℚ) *
          ((Device.mk "vip" DeviceStatus.occupied 3 0).hourly_rate / 60) = 3 ∧
      (3 / 2 : ℚ) ≠ 3 := by
  refine ⟨?_, by norm_num, by norm_num⟩
  simp only [calculateSessionCost, round2, jsRound]
  norm_num

/-- C2: the claim says the fixed-duration base cost is computed from the
owning device's `hourly_rate`, and its own example prices a 60-minute
session on an `hourly_rate = 2` device at `2.00`.  The code hard-codes
`1.5` per whole hour and `0.025` per remaining minute: on the seeded
internal device (`hourly_rate = 2`) the same session is billed `1.50`. -/
theorem C2_fixed_rate_is_hardcoded :
    calculateSessionCost false true 3600000
        { id := "s1", device_id := "int", start_time := some 0,
          end_time := some 3600000, extra_controllers := 0,
          status := SessionStatus.active, total_cost := 0, discount_amount := 0,
          final_amount := 0, customer_name := none }
        { id := "int", status := DeviceStatus.occupied, hourly_rate := 2,
          extra_controller_rate := 1 / 4 } = 3 / 2 ∧
      (⌊(60 : ℚ) / 60⌋ : ℚ) *
            (Device.mk "int" DeviceStatus.occupied 2 (1 / 4)).hourly_rate +
          jsMod 60 60 *
            ((Device.mk "int" DeviceStatus.occupied 2 (1 / 4)).hourly_rate / 60) =
        2 ∧
      (3 / 2 : ℚ) ≠ 2 := by
  refine ⟨?_, ?_, by norm_num⟩
  · simp only [calculateSessionCost, round2, jsRound, jsMod, jsTrunc]
    norm_num
  · simp only [jsMod, jsTrunc]
    norm_num

/-- C7: for a fixed-duration session (non-null `end_time`), the cost
computed at any time at or after the scheduled end equals the cost computed
at exactly the scheduled end — no further cost accrues after expiry. -/
theorem C7_fixed_cost_stops_at_expiry (s : Session) (d : Device) (e t : ℚ)
    (b b' : Bool) (_ht : e ≤ t) :
    calculateSessionCost false b t { s with end_time := some e } d =
      calculateSessionCost false b' e { s with end_time := some e } d :=
  calc_const_of_end_some false b b' t e e s d

/-- Witness for C7 at a concrete expired session. -/
theorem C7_witness :
    (3600000 : ℚ) ≤ 7200000 ∧
      calculateSessionCost false true 7200000
          { id := "s1", device_id := "d1", start_time := some 0,
            end_time := some 3600000, extra_controllers := 1,
            status := SessionStatus.active, total_cost := 0, discount_amount := 0,
            final_amount := 0, customer_name := none }
          { id := "d1", status := DeviceStatus.occupied, hourly_rate := 3 / 2,
            extra_controller_rate := 1 / 4 } =
        calculateSessionCost false false 3600000
          { id := "s1", device_id := "d1", start_time := some 0,
            end_time := some 3600000, extra_controllers := 1,
            status := SessionStatus.active, total_cost := 0, discount_amount := 0,
            final_amount := 0, customer_name := none }
          { id := "d1", status := DeviceStatus.occupied, hourly_rate := 3 / 2,
            extra_controller_rate := 1 / 4 } :=
  ⟨by norm_num,
    C7_fixed_cost_stops_at_expiry
      { id := "s1", device_id := "d1", start_time := some 0,
        end_time := some 3600000, extra_controllers := 1,
        status := SessionStatus.active, total_cost := 0, discount_amount := 0,
        final_amount := 0, customer_name := none }
      { id := "d1", status := DeviceStatus.occupied, hourly_rate := 3 / 2,
        extra_controller_rate := 1 / 4 }
      3600000 7200000 true false (by norm_num)⟩

/-- C9: for an open-ended session (null `end_time`), the computed cost is
non-decreasing in the current time, for any extra-controller count and any
non-negative extra-controller rate, across the final two-decimal rounding. -/
theorem C9_open_cost_monotone (s : Session) (d : Device) (start t1 t2 : ℚ)
    (b1 b2 : Bool) (hr : 0 ≤ d.extra_controller_rate) (ht : t1 ≤ t2) :
    calculateSessionCost true b1 t1
        { s with start_time := some start, end_time := none } d ≤
      calculateSessionCost true b2 t2
        { s with start_time := some start, end_time := none } d := by
  simp only [calculateSessionCost, Option.isSome_none, Bool.not_true,
    Bool.false_and, Bool.and_false, Option.getD_none, if_true, if_false,
    Bool.false_eq_true, ite_false, ite_true]
  apply round2_mono
  have hm : (t1 - start) / (1000 * 60) ≤ (t2 - start) / (1000 * 60) :=
    div_le_div_of_nonneg_right (by linarith) (by norm_num)
  have hk : 0 ≤ (s.extra_controllers : ℚ) * d.extra_controller_rate :=
    mul_nonneg (Nat.cast_nonneg _) hr
  nlinarith [mul_nonneg (sub_nonneg.mpr hm) hk]

/-- Witness for C9 at a concrete open-ended session. -/
theorem C9_witness :
    (0 : ℚ) ≤ 1 / 4 ∧ (60000 : ℚ) ≤ 3600000 ∧
      calculateSessionCost true false 60000
          { id := "s1", device_id := "d1", start_time := some 0,
            end_time := none, extra_controllers := 2,
            status := SessionStatus.active, total_cost := 0, discount_amount := 0,
            final_amount := 0, customer_name := none }
          { id := "d1", status := DeviceStatus.occupied, hourly_rate := 3 / 2,
            extra_controller_rate := 1 / 4 } ≤
        calculateSessionCost true true 3600000
          { id := "s1", device_id := "d1", start_time := some 0,
            end_time := none, extra_controllers := 2,
            status := SessionStatus.active, total_cost := 0, discount_amount := 0,
            final_amount := 0, customer_name := none }
          { id := "d1", status := DeviceStatus.occupied, hourly_rate := 3 / 2,
            extra_controller_rate := 1 / 4 } :=
  ⟨by norm_num, by norm_num,
    C9_open_cost_monotone
      { id := "s1", device_id := "d1", start_time := some 0, end_time := none,
        extra_controllers := 2, status := SessionStatus.active, total_cost := 0,
        discount_amount := 0, final_amount := 0, customer_name := none }
      { id := "d1", status := DeviceStatus.occupied, hourly_rate := 3 / 2,
        extra_controller_rate := 1 / 4 }
      0 60000 3600000 false true (by norm_num) (by norm_num)⟩

/-- C10: whenever a session's `end_time` field is non-null,
`calculateSessionCost` uses the stored `end_time` as the effective end on
every control path — also when the current time is still earlier — so the
result is independent of the current time and of the expired flag, and a
not-yet-expired fixed-duration session is billed its full scheduled
duration from the start. -/
theorem C10_stored_end_time_is_effective_end (s : Session) (d : Device)
    (e : ℚ) (iso b b' : Bool) (t t' : ℚ) :
    calculateSessionCost iso b t { s with end_time := some e } d =
      calculateSessionCost iso b' t' { s with end_time := some e } d :=
  calc_const_of_end_some iso b b' t t' e s d

/-- C5 counterexample: the claim says every recorded sale stores
`final_amount = round(total_price × (1 − discount/100), 2)`.  For a cart of
three items at unit price `0.25` with a `10 %` discount, `handleCheckout`
stores `0.675` unrounded, while the claimed rounded value is `0.68`. -/
theorem C5_counterexample_no_rounding :
    (checkoutSale "p1" (1 / 4) 3 (3 / 4) 10).final_amount = 27 / 40 ∧
      round2 ((checkoutSale "p1" (1 / 4) 3 (3 / 4) 10).total_price *
        (1 - 10 / 100)) = 68 / 100 ∧
      (27 / 40 : ℚ) ≠ 68 / 100 := by
  refine ⟨?_, ?_, by norm_num⟩
  · simp only [checkoutSale]
    norm_num
  · simp only [checkoutSale, round2, jsRound]
    norm_num

/-- C5 amended: for every session completed by `endSession` and every sale
recorded by `handleCheckout`, the stored `final_amount` equals
`total_cost × (1 − discount/100)` exactly — no two-decimal rounding is
applied to it — and `final_amount ≤ total_cost` whenever the discount lies
in `[0, 100]` and the total is non-negative. -/
theorem C5_final_amount_exact_discount :
    (∀ (st : StoreState) (did : String) (io ef : Bool) (now disc : ℚ)
        (session : Session) (device : Device),
      st.sessions.find? (fun s =>
          s.device_id == did && s.status == SessionStatus.active) = some session →
      st.devices.find? (fun d => d.id == did) = some device →
      ∀ s' ∈ (endSession st did io ef now disc).sessions, s'.id = session.id →
        s'.final_amount = s'.total_cost * (1 - disc / 100) ∧
          (0 ≤ disc → disc ≤ 100 → 0 ≤ s'.total_cost →
            s'.final_amount ≤ s'.total_cost)) ∧
    (∀ (pid : String) (price : ℚ) (qty : ℕ) (subtotal disc : ℚ),
      (checkoutSale pid price qty subtotal disc).final_amount =
          (checkoutSale pid price qty subtotal disc).total_price *
            (1 - disc / 100) ∧
        (0 ≤ disc → disc ≤ 100 → 0 ≤ price * (qty : ℚ) →
          (checkoutSale pid price qty subtotal disc).final_amount ≤
            (checkoutSale pid price qty subtotal disc).total_price)) := by
  constructor
  · intro st did io ef now disc session device hfs hfd s' hs' hid
    rw [endSession, hfs, hfd] at hs'
    simp only [completeSession, List.mem_map] at hs'
    obtain ⟨s0, hs0, rfl⟩ := hs'
    by_cases h : s0.id = session.id
    · rw [if_pos h]
      constructor
      · ring
      · intro h0 h100 htc
        nlinarith
    · rw [if_neg h] at hid
      exact absurd hid h
  · intro pid price qty subtotal disc
    constructor
    · simp only [checkoutSale]
    · intro h0 h100 htc
      simp only [checkoutSale]
      nlinarith

/-- Witness for C5 at a concrete ended session (10 % discount) and a
concrete checkout (50 % discount on two items of unit price 1). -/
theorem C5_final_amount_witness :
    (0 : ℚ) ≤ 10 ∧
      ((Session.mk "s1" "d1" (some 0) (some 60000) 0 SessionStatus.completed
            (calculateSessionCost true false 60000
              (Session.mk "s1" "d1" (some 0) (some 60000) 0 SessionStatus.active
                0 0 0 none)
              (Device.mk "d1" DeviceStatus.occupied (3 / 2) (1 / 4)))
            (10 / 100 *
              calculateSessionCost true false 60000
                (Session.mk "s1" "d1" (some 0) (some 60000) 0 SessionStatus.active
                  0 0 0 none)
                (Device.mk "d1" DeviceStatus.occupied (3 / 2) (1 / 4)))
            (calculateSessionCost true false 60000
                (Session.mk "s1" "d1" (some 0) (some 60000) 0 SessionStatus.active
                  0 0 0 none)
                (Device.mk "d1" DeviceStatus.occupied (3 / 2) (1 / 4)) -
              10 / 100 *
                calculateSessionCost true false 60000
                  (Session.mk "s1" "d1" (some 0) (some 60000) 0 SessionStatus.active
                    0 0 0 none)
                  (Device.mk "d1" DeviceStatus.occupied (3 / 2) (1 / 4)))
            none).final_amount =
          (Session.mk "s1" "d1" (some 0) (some 60000) 0 SessionStatus.completed
            (calculateSessionCost true false 60000
              (Session.mk "s1" "d1" (some 0) (some 60000) 0 SessionStatus.active
                0 0 0 none)
              (Device.mk "d1" DeviceStatus.occupied (3 / 2) (1 / 4)))
            (10 / 100 *
              calculateSessionCost true false 60000
                (Session.mk "s1" "d1" (some 0) (some 60000) 0 SessionStatus.active
                  0 0 0 none)
                (Device.mk "d1" DeviceStatus.occupied (3 / 2) (1 / 4)))
            (calculateSessionCost true false 60000
                (Session.mk "s1" "d1" (some 0) (some 60000) 0 SessionStatus.active
                  0 0 0 none)
                (Device.mk "d1" DeviceStatus.occupied (3 / 2) (1 / 4)) -
              10 / 100 *
                calculateSessionCost true false 60000
                  (Session.mk "s1" "d1" (some 0) (some 60000) 0 SessionStatus.active
                    0 0 0 none)
                  (Device.mk "d1" DeviceStatus.occupied (3 / 2) (1 / 4)))
            none).total_cost * (1 - 10 / 100)) ∧
      (checkoutSale "p2" 1 2 2 50).final_amount =
        (checkoutSale "p2" 1 2 2 50).total_price * (1 - 50 / 100) :=
  ⟨by norm_num,
    (C5_final_amount_exact_discount.1
      ⟨[Device.mk "d1" DeviceStatus.occupied (3 / 2) (1 / 4)],
        [Session.mk "s1" "d1" (some 0) none 0 SessionStatus.active 0 0 0 none]⟩
      "d1" true false 60000 10
      (Session.mk "s1" "d1" (some 0) none 0 SessionStatus.active 0 0 0 none)
      (Device.mk "d1" DeviceStatus.occupied (3 / 2) (1 / 4))
      rfl rfl _ (List.Mem.head _) rfl).1,
    (C5_final_amount_exact_discount.2 "p2" 1 2 2 50).1⟩

/-- C6: starting a session on a device whose status is not `available` is
rejected — the operation surfaces the error and creates no session row
(the sessions table is unchanged; the catch block's compensating write
touches only the device row) — and ending a session — with the device and
its active session found — leaves every device row with that id in status
`available`. -/
theorem C6_start_rejected_end_releases :
    (∀ (st : StoreState) (did : String) (isOpen : Bool) (dur : ℚ)
        (cn : Option String) (now : ℚ) (nid : String) (device : Device),
      st.devices.find? (fun d => d.id == did) = some device →
      device.status ≠ DeviceStatus.available →
      (startSession st did isOpen dur cn now nid).2 =
          some "Device is not available" ∧
        (startSession st did isOpen dur cn now nid).1.sessions =
          st.sessions) ∧
    (∀ (st : StoreState) (did : String) (io ef : Bool) (now disc : ℚ)
        (session : Session) (device : Device),
      st.sessions.find? (fun s =>
          s.device_id == did && s.status == SessionStatus.active) = some session →
      st.devices.find? (fun d => d.id == did) = some device →
      ((endSession st did io ef now disc).devices.filter fun d =>
          d.id == did).all (fun d => d.status == DeviceStatus.available) = true) := by
  constructor
  · intro st did isOpen dur cn now nid device hfd hst
    simp only [startSession, hfd]
    rw [if_pos hst]
    exact ⟨rfl, rfl⟩
  · intro st did io ef now disc session device hfs hfd
    simp only [endSession, hfs, hfd]
    simp only [List.all_eq_true, List.mem_filter, setDeviceStatus, List.mem_map]
    rintro d ⟨⟨d0, hd0, rfl⟩, hdid⟩
    by_cases h : d0.id = did
    · rw [if_pos h]
      simp
    · rw [if_neg h] at hdid
      exact absurd (by simpa using hdid) h

/-- Witness for C6: a maintenance device rejects a new session without
creating one; ending the only session of an occupied device leaves it
available. -/
theorem C6_lifecycle_witness :
    DeviceStatus.maintenance ≠ DeviceStatus.available ∧
      ((startSession ⟨[Device.mk "d2" DeviceStatus.maintenance 2 0], []⟩ "d2"
            true 60 none 0 "u1").2 = some "Device is not available" ∧
        (startSession ⟨[Device.mk "d2" DeviceStatus.maintenance 2 0], []⟩ "d2"
            true 60 none 0 "u1").1.sessions = ([] : List Session)) ∧
      ((endSession
            ⟨[Device.mk "d1" DeviceStatus.occupied (3 / 2) (1 / 4)],
              [Session.mk "s1" "d1" (some 0) none 0 SessionStatus.active 0 0 0
                none]⟩
            "d1" true false 60000 0).devices.filter fun d =>
          d.id == "d1").all (fun d => d.status == DeviceStatus.available) =
        true :=
  ⟨by simp,
    C6_start_rejected_end_releases.1
      ⟨[Device.mk "d2" DeviceStatus.maintenance 2 0], []⟩ "d2" true 60 none 0
      "u1" (Device.mk "d2" DeviceStatus.maintenance 2 0) rfl (by simp),
    C6_start_rejected_end_releases.2
      ⟨[Device.mk "d1" DeviceStatus.occupied (3 / 2) (1 / 4)],
        [Session.mk "s1" "d1" (some 0) none 0 SessionStatus.active 0 0 0 none]⟩
      "d1" true false 60000 0
      (Session.mk "s1" "d1" (some 0) none 0 SessionStatus.active 0 0 0 none)
      (Device.mk "d1" DeviceStatus.occupied (3 / 2) (1 / 4)) rfl rfl⟩

/-- Counting active sessions of a device across a cons cell. -/
theorem activeSessionCount_cons (a : Session) (t : List Session) (did : String) :
    activeSessionCount (a :: t) did =
      (if a.device_id = did ∧ a.status = SessionStatus.active then 1 else 0) +
        activeSessionCount t did := by
  unfold activeSessionCount
  by_cases h : a.device_id = did ∧ a.status = SessionStatus.active
  · have hb : (a.device_id == did && (a.status == SessionStatus.active)) = true := by
      simp [h.1, h.2]
    simp [List.filter_cons, hb, h]
    omega
  · have hb : (a.device_id == did && (a.status == SessionStatus.active)) = false := by
      rcases not_and_or.mp h with h' | h' <;> simp [h']
    simp [List.filter_cons, hb, h]

/-- Counting active sessions of a device across appending one session. -/
theorem activeSessionCount_append (l : List Session) (x : Session)
    (did : String) :
    activeSessionCount (l ++ [x]) did =
      activeSessionCount l did +
        (if x.device_id = did ∧ x.status = SessionStatus.active then 1 else 0) := by
  induction l with
  | nil =>
    simp only [List.nil_append, activeSessionCount_cons]
    have h0 : activeSessionCount [] did = 0 := rfl
    rw [h0]
    omega
  | cons a t ih =>
    rw [List.cons_append, activeSessionCount_cons, ih, activeSessionCount_cons]
    omega

/-- The session update of `endSession` leaves a list untouched when no row
carries the targeted id. -/
theorem completeSession_of_forall_ne (l : List Session) (sid : String)
    (h : ∀ s ∈ l, s.id ≠ sid) (e tc da fa : ℚ) :
    completeSession l sid e tc da fa = l := by
  induction l with
  | nil => rfl
  | cons a t ih =>
    unfold completeSession
    rw [List.map_cons, if_neg (h a (List.mem_cons_self a t))]
    have ht := ih fun s hs => h s (List.mem_cons_of_mem a hs)
    unfold completeSession at ht
    rw [ht]

/-- The session update of `endSession` keeps every row's id. -/
theorem completeSession_map_id (l : List Session) (sid : String)
    (e tc da fa : ℚ) :
    (completeSession l sid e tc da fa).map Session.id = l.map Session.id := by
  unfold completeSession
  rw [List.map_map]
  apply List.map_congr_left
  intro s _
  by_cases h : s.id = sid <;> simp [h]

/-- Completing the session `s0` (with unique ids) removes exactly `s0`'s
contribution from every device's active-session count. -/
theorem activeSessionCount_completeSession (l : List Session) (s0 : Session)
    (did : String) (e tc da fa : ℚ) (hmem : s0 ∈ l)
    (hnd : (l.map Session.id).Nodup) :
    activeSessionCount l did =
      activeSessionCount (completeSession l s0.id e tc da fa) did +
        (if s0.device_id = did ∧ s0.status = SessionStatus.active then 1
          else 0) := by
  induction l with
  | nil => cases hmem
  | cons a t ih =>
    rw [List.map_cons, List.nodup_cons] at hnd
    obtain ⟨hna, hndt⟩ := hnd
    rcases List.mem_cons.mp hmem with rfl | hmt
    · have hteq : completeSession t s0.id e tc da fa = t :=
        completeSession_of_forall_ne t s0.id
          (fun s hs heq => hna (heq ▸ List.mem_map_of_mem Session.id hs))
          e tc da fa
      have hcs : completeSession (s0 :: t) s0.id e tc da fa =
          ({ s0 with
              end_time := some e
              status := SessionStatus.completed
              total_cost := tc
              discount_amount := da
              final_amount := fa } : Session) :: t := by
        unfold completeSession
        rw [List.map_cons, if_pos rfl]
        unfold completeSession at hteq
        rw [hteq]
      rw [activeSessionCount_cons, hcs, activeSessionCount_cons]
      have hupd : ¬ (s0.device_id = did ∧
          SessionStatus.completed = SessionStatus.active) := by
        rintro ⟨-, hst⟩
        cases hst
      rw [if_neg hupd]
      omega
    · have hne : a.id ≠ s0.id := by
        intro heq
        exact hna (heq ▸ List.mem_map_of_mem Session.id hmt)
      have hcs : completeSession (a :: t) s0.id e tc da fa =
          a :: completeSession t s0.id e tc da fa := by
        unfold completeSession
        rw [List.map_cons, if_neg hne]
      rw [activeSessionCount_cons, hcs, activeSessionCount_cons,
        ih hmt hndt]
      omega

/-- Appending a fresh active session for an available device and marking
the device occupied preserves the one-active-session invariant. -/
theorem startSession_core_inv (devices : List Device) (sessions : List Session)
    (did nid : String) (device : Device)
    (hfd : devices.find? (fun d => d.id == did) = some device)
    (hav : device.status = DeviceStatus.available)
    (hfresh : nid ∉ sessions.map Session.id)
    (hinv : sessionsInv ⟨devices, sessions⟩) (row : Session)
    (hrow_id : row.id = nid) (hrow_dev : row.device_id = did)
    (hrow_st : row.status = SessionStatus.active) :
    sessionsInv ⟨setDeviceStatus devices did DeviceStatus.occupied,
      sessions ++ [row]⟩ := by
  have hnd : (sessions.map Session.id).Nodup := hinv.1
  have hdev : ∀ d ∈ devices,
      (d.status = DeviceStatus.occupied →
        activeSessionCount sessions d.id = 1) ∧
      (d.status ≠ DeviceStatus.occupied →
        activeSessionCount sessions d.id = 0) := hinv.2
  have hdmem : device ∈ devices := List.mem_of_find?_eq_some hfd
  have hdevid : device.id = did := by simpa using List.find?_some hfd
  have hcount0 : activeSessionCount sessions did = 0 := by
    have := (hdev device hdmem).2 (by rw [hav]; intro h; cases h)
    rwa [hdevid] at this
  constructor
  · rw [List.map_append, List.nodup_append]
    refine ⟨hnd, List.nodup_singleton _, ?_⟩
    intro x hx hx'
    have hxe : x = nid := by
      simpa [hrow_id] using hx'
    subst hxe
    exact hfresh hx
  · intro d' hd'
    simp only [setDeviceStatus, List.mem_map] at hd'
    obtain ⟨d0, hd0, rfl⟩ := hd'
    by_cases hid : d0.id = did
    · rw [if_pos hid]
      constructor
      · intro _
        have hone : activeSessionCount (sessions ++ [row]) did = 1 := by
          rw [activeSessionCount_append, hcount0,
            if_pos ⟨hrow_dev, hrow_st⟩]
        simpa [hid] using hone
      · intro hc
        exact absurd rfl hc
    · rw [if_neg hid]
      have hshift : activeSessionCount (sessions ++ [row]) d0.id =
          activeSessionCount sessions d0.id := by
        rw [activeSessionCount_append,
          if_neg (by rintro ⟨h1, -⟩; rw [hrow_dev] at h1; exact hid h1.symm)]
        omega
      rw [hshift]
      exact hdev d0 hd0

/-- Completing a device's unique active session and releasing the device
preserves the one-active-session invariant. -/
theorem endSession_core_inv (devices : List Device) (sessions : List Session)
    (did : String) (session : Session) (device : Device) (e tc da fa : ℚ)
    (hfs : sessions.find? (fun s =>
      s.device_id == did && s.status == SessionStatus.active) = some session)
    (hfd : devices.find? (fun d => d.id == did) = some device)
    (hinv : sessionsInv ⟨devices, sessions⟩) :
    sessionsInv ⟨setDeviceStatus devices did DeviceStatus.available,
      completeSession sessions session.id e tc da fa⟩ := by
  have hnd : (sessions.map Session.id).Nodup := hinv.1
  have hdev : ∀ d ∈ devices,
      (d.status = DeviceStatus.occupied →
        activeSessionCount sessions d.id = 1) ∧
      (d.status ≠ DeviceStatus.occupied →
        activeSessionCount sessions d.id = 0) := hinv.2
  have hsmem : session ∈ sessions := List.mem_of_find?_eq_some hfs
  have hsprop := List.find?_some hfs
  have hsdid : session.device_id = did := by
    have := hsprop
    simp only [Bool.and_eq_true, beq_iff_eq] at this
    exact this.1
  have hsact : session.status = SessionStatus.active := by
    have := hsprop
    simp only [Bool.and_eq_true, beq_iff_eq] at this
    exact this.2
  have hdmem : device ∈ devices := List.mem_of_find?_eq_some hfd
  have hdevid : device.id = did := by simpa using List.find?_some hfd
  have hcount1 : activeSessionCount sessions did = 1 := by
    by_cases hocc : device.status = DeviceStatus.occupied
    · have := (hdev device hdmem).1 hocc
      rwa [hdevid] at this
    · exfalso
      have h0 := (hdev device hdmem).2 hocc
      rw [hdevid] at h0
      have hmemf : session ∈ sessions.filter fun s =>
          s.device_id == did && s.status == SessionStatus.active :=
        List.mem_filter.mpr ⟨hsmem, hsprop⟩
      have hpos : 0 < activeSessionCount sessions did :=
        List.length_pos.mpr (List.ne_nil_of_mem hmemf)
      omega
  have hzero : activeSessionCount
      (completeSession sessions session.id e tc da fa) did = 0 := by
    have hsplit := activeSessionCount_completeSession sessions session did
      e tc da fa hsmem hnd
    rw [if_pos ⟨hsdid, hsact⟩, hcount1] at hsplit
    omega
  constructor
  · rw [completeSession_map_id]
    exact hnd
  · intro d' hd'
    simp only [setDeviceStatus, List.mem_map] at hd'
    obtain ⟨d0, hd0, rfl⟩ := hd'
    by_cases hid : d0.id = did
    · rw [if_pos hid]
      constructor
      · intro hc
        cases hc
      · intro _
        simpa [hid] using hzero
    · rw [if_neg hid]
      have hsame : activeSessionCount
          (completeSession sessions session.id e tc da fa) d0.id =
          activeSessionCount sessions d0.id := by
        have hsplit := activeSessionCount_completeSession sessions session
          d0.id e tc da fa hsmem hnd
        rw [if_neg (by
          rintro ⟨h1, -⟩
          rw [hsdid] at h1
          exact hid h1.symm)] at hsplit
        omega
      rw [hsame]
      exact hdev d0 hd0

/-- C8 (code bug): the program's own rejected `startSession` path violates
the one-active-session invariant.  On a state satisfying it — one occupied
device owning one active session — a second `startSession` on that device
is rejected with "Device is not available", but the catch block's
compensating write rewrites the device row to `available` while the active
session persists, so the resulting state has an available device owning an
active session.  The success path and `endSession` do preserve the
invariant (`startSession_core_inv`, `endSession_core_inv`), isolating the
violation to the rejection path's unconditional compensation. -/
theorem C8_rejected_start_breaks_invariant :
    sessionsInv
        ⟨[Device.mk "d1" DeviceStatus.occupied (3 / 2) (1 / 4)],
          [Session.mk "s1" "d1" (some 0) none 0 SessionStatus.active 0 0 0
            none]⟩ ∧
      (startSession
          ⟨[Device.mk "d1" DeviceStatus.occupied (3 / 2) (1 / 4)],
            [Session.mk "s1" "d1" (some 0) none 0 SessionStatus.active 0 0 0
              none]⟩
          "d1" true 60 none 0 "u2").2 = some "Device is not available" ∧
      (startSession
          ⟨[Device.mk "d1" DeviceStatus.occupied (3 / 2) (1 / 4)],
            [Session.mk "s1" "d1" (some 0) none 0 SessionStatus.active 0 0 0
              none]⟩
          "d1" true 60 none 0 "u2").1.devices =
        [Device.mk "d1" DeviceStatus.available (3 / 2) (1 / 4)] ∧
      (startSession
          ⟨[Device.mk "d1" DeviceStatus.occupied (3 / 2) (1 / 4)],
            [Session.mk "s1" "d1" (some 0) none 0 SessionStatus.active 0 0 0
              none]⟩
          "d1" true 60 none 0 "u2").1.sessions =
        [Session.mk "s1" "d1" (some 0) none 0 SessionStatus.active 0 0 0
          none] ∧
      ¬ sessionsInv
        (startSession
          ⟨[Device.mk "d1" DeviceStatus.occupied (3 / 2) (1 / 4)],
            [Session.mk "s1" "d1" (some 0) none 0 SessionStatus.active 0 0 0
              none]⟩
          "d1" true 60 none 0 "u2").1 := by
  refine ⟨⟨?_, ?_⟩, rfl, rfl, rfl, ?_⟩
  · simp
  · intro d hd
    rw [List.mem_singleton] at hd
    subst hd
    refine ⟨?_, ?_⟩
    · intro _
      rfl
    · intro hc
      exact absurd rfl hc
  · rintro ⟨-, hdev⟩
    have h : activeSessionCount
        [Session.mk "s1" "d1" (some 0) none 0 SessionStatus.active 0 0 0 none]
        "d1" = 0 :=
      (hdev (Device.mk "d1" DeviceStatus.available (3 / 2) (1 / 4))
        (List.Mem.head _)).2 (by intro hc; cases hc)
    have h1 : activeSessionCount
        [Session.mk "s1" "d1" (some 0) none 0 SessionStatus.active 0 0 0 none]
        "d1" = 1 := rfl
    omega

end PsM

